import Mathlib

/-!
Shallow embedding of `sftp.go` (package `sftps`): a session facade over an
SSH transport and an SFTP subprotocol channel.  External library calls
(DNS lookup, dial, SFTP client negotiation, remote open/create/copy,
closes) are modelled by an explicit environment `Env` that fixes the
result of each call site; the facade's own control flow, including Go's
named-return values, `defer` execution on every exit path, and runtime
panics on nil-pointer dereferences and failed type assertions, is
translated statement by statement from the source.
-/

/-- A Go `error` value that is non-nil, abstracted to its message. -/
abbrev GoErr := String

/-- A Go `error` variable: `none` is the nil error. -/
abbrev Err := Option GoErr

/-- The runtime panic message for dereferencing a nil pointer
(method call on a nil `*sftp.Client`, `*ssh.Client`, `*ssh.Session` or
`*sftp.File` receiver). -/
def nilDeref : GoErr := "nil pointer dereference"

/-- Modelled from the spec: the connection-parameter struct held by the
facade (`sftpParameters`, defined outside `sftp.go`); its fields are
exactly the ones `sftp.go` reads (`host`, `port`, `user`, `pass`,
`useKey`, `privateKey`, `usePassphrase`, `passphrase`). -/
structure SftpParameters where
  host : String
  port : Nat
  user : String
  pass : String
  useKey : Bool
  privateKey : String
  usePassphrase : Bool
  passphrase : String
deriving Repr, DecidableEq

/-- The facade state (`SecureFtp`): whether each client pointer is
non-nil (`true`) or nil (`false`), plus the construction parameters. -/
structure SecureFtp where
  sshClient : Bool
  sftpClient : Bool
  params : SftpParameters
deriving Repr, DecidableEq

/-- `newSftp`: fresh facade, both client pointers nil. -/
def newSftp (p : SftpParameters) : SecureFtp :=
  { sshClient := false, sftpClient := false, params := p }

/-- Observable events: each external call the facade makes, in program
order, including the deferred `Close` calls run on function exit.
`symlinkEv old new` records `sftpClient.Symlink(old, new)`, whose library
contract creates the link at `new` pointing at `old`. -/
inductive Ev where
  | closeSftp
  | closeSsh
  | closeSession
  | closeLocal
  | closeLocalFile
  | closeRemote
  | lookupEv (host : String)
  | readFileEv (path : String)
  | parseEv (pem : String) (withPass : Bool) (pass : String)
  | dialEv (addr : String)
  | newClientEv
  | newSessionEv
  | outputEv (cmd : String)
  | createLocalEv (p : String)
  | openLocalEv (p : String)
  | openRemoteEv (p : String)
  | createRemoteEv (p : String)
  | copyEv
  | mkdirEv (p : String)
  | removeEv (p : String)
  | renameEv (o n : String)
  | symlinkEv (old new : String)
deriving Repr, DecidableEq

/-- How a Go function call terminates: a normal return carrying the
result value and the (possibly nil) error, or a runtime panic. -/
inductive Out (α : Type) where
  | ret (a : α) (e : Err)
  | panicked (msg : GoErr)
deriving Repr, DecidableEq

/-- Result of running one facade operation: its termination, the facade
state afterwards, and the trace of external calls it made. -/
structure Result (α : Type) where
  out : Out α
  st : SecureFtp
  tr : List Ev
deriving Repr, DecidableEq

/-- An entry of `ssh.ClientConfig.Auth`. -/
inductive AuthMethod where
  | publicKeys
  | password (pass : String)
deriving Repr, DecidableEq

/-- The `ssh.ClientConfig` built by `connect`: user name, host-key
verification callback, authentication methods. -/
structure ClientConfig where
  user : String
  hostKeyCheck : String → String → String → Err
  auth : List AuthMethod

/-- Environment fixing the result of every external library call site. -/
structure Env where
  lookupIP : String → Except GoErr (List String)
  readFile : String → Except GoErr String
  parseKey : String → Except GoErr Unit
  parseKeyWithPass : String → String → Except GoErr Unit
  dial : String → ClientConfig → Except GoErr Unit
  newClient : Except GoErr Unit
  sftpClose : Err
  sshClose : Err
  newSession : Except GoErr Unit
  output : String → String × Err
  createLocal : String → Except GoErr Unit
  openLocal : String → Except GoErr Unit
  openRemote : String → Except GoErr Unit
  createRemote : String → Except GoErr Unit
  copy : Nat × Err
  copyNil : Sum GoErr (Nat × Err)
  mkdirRes : String → Err
  removeRes : String → Err
  renameRes : String → String → Err
  symlinkRes : String → String → Err

/-- `quit`: closes the SFTP client, then (only if that succeeded) the SSH
client, returning the first error.  A nil client pointer makes the
`Close` method call dereference nil and panic.  The state is unchanged:
`Close` does not nil out the pointers. -/
def quit (env : Env) (s : SecureFtp) : Result Unit :=
  if s.sftpClient then
    match env.sftpClose with
    | some e => { out := Out.ret () (some e), st := s, tr := [Ev.closeSftp] }
    | none =>
      if s.sshClient then
        match env.sshClose with
        | some e =>
          { out := Out.ret () (some e), st := s, tr := [Ev.closeSftp, Ev.closeSsh] }
        | none =>
          { out := Out.ret () none, st := s, tr := [Ev.closeSftp, Ev.closeSsh] }
      else { out := Out.panicked nilDeref, st := s, tr := [Ev.closeSftp] }
  else { out := Out.panicked nilDeref, st := s, tr := [] }

/-- The `HostKeyCallback` closure installed by `connect`: accepts every
(hostname, remote address, public key) triple. -/
def hostKeyCallback (hostname : String) (remote : String) (key : String) : Err :=
  none

/-- The `ssh.ClientConfig` literal at the top of `connect` (auth methods
are appended later, as in the source). -/
def baseConfig (p : SftpParameters) : ClientConfig :=
  { user := p.user, hostKeyCheck := hostKeyCallback, auth := [] }

/-- Modelled from the spec: the file-reference scheme constant
`FILEPROTOCOL` (defined outside `sftp.go`), a `file://`-style marker that
makes `connect` read the private key from a local file. -/
def FILEPROTOCOL : String := "file://"

/-- Lines 50–58 of `connect`: parse the resolved key bytes `b`, with the
passphrase exactly when `usePassphrase` is set. -/
def parseStep (env : Env) (p : SftpParameters) (b : String) (tr : List Ev) :
    Except GoErr Unit × List Ev :=
  if p.usePassphrase then
    match env.parseKeyWithPass b p.passphrase with
    | Except.error e => (Except.error e, tr ++ [Ev.parseEv b true p.passphrase])
    | Except.ok _ => (Except.ok (), tr ++ [Ev.parseEv b true p.passphrase])
  else
    match env.parseKey b with
    | Except.error e => (Except.error e, tr ++ [Ev.parseEv b false ""])
    | Except.ok _ => (Except.ok (), tr ++ [Ev.parseEv b false ""])

/-- `strings.HasPrefix(s, FILEPROTOCOL)`: does the configured
private-key string carry the file-reference scheme? -/
def hasScheme (s : String) : Bool :=
  FILEPROTOCOL.toList.isPrefixOf s.toList

/-- The local key-file path obtained by stripping the `FILEPROTOCOL`
scheme from the configured private-key string
(`strings.TrimPrefix`, guarded by the scheme check). -/
def keyPath (p : SftpParameters) : String :=
  String.mk (p.privateKey.toList.drop FILEPROTOCOL.toList.length)

/-- The error built by `fmt.Errorf` when the key file cannot be read:
it names the file. -/
def keyFileError (path e : String) : GoErr :=
  s!"Private Key File \"{path}\": {e}"

/-- Lines 38–58 of `connect`: resolve the private-key bytes (read from a
local file when the configured string carries the `FILEPROTOCOL` scheme,
inline otherwise) and parse them.  Returns the parse outcome and the
trace of external calls. -/
def resolveKey (env : Env) (p : SftpParameters) : Except GoErr Unit × List Ev :=
  if hasScheme p.privateKey then
    let path := keyPath p
    match env.readFile path with
    | Except.error e =>
      (Except.error (keyFileError path e), [Ev.readFileEv path])
    | Except.ok b => parseStep env p b [Ev.readFileEv path]
  else parseStep env p p.privateKey []

/-- `connect`: build the config, resolve key authentication, look up the
host, dial, and open the SFTP channel.  On `sftp.NewClient` failure the
already-opened transport is closed; if that close fails its error
replaces the original one (as in the source). -/
def connect (env : Env) (s : SecureFtp) : Result Unit :=
  let keyRes : Except GoErr (List AuthMethod) × List Ev :=
    if s.params.useKey then
      match resolveKey env s.params with
      | (Except.error e, tr) => (Except.error e, tr)
      | (Except.ok _, tr) => (Except.ok [AuthMethod.publicKeys], tr)
    else (Except.ok [], [])
  match keyRes with
  | (Except.error e, tr) => { out := Out.ret () (some e), st := s, tr := tr }
  | (Except.ok keyAuth, tr1) =>
    let auth := keyAuth ++
      (if s.params.pass.length > 0 then [AuthMethod.password s.params.pass] else [])
    let cfg : ClientConfig := { baseConfig s.params with auth := auth }
    let host := s.params.host
    match env.lookupIP host with
    | Except.error e =>
      { out := Out.ret () (some e), st := s, tr := tr1 ++ [Ev.lookupEv host] }
    | Except.ok [] =>
      { out := Out.panicked "index out of range", st := s,
        tr := tr1 ++ [Ev.lookupEv host] }
    | Except.ok (ip0 :: _) =>
      let port := s.params.port
      let addr := s!"{ip0}:{port}"
      match env.dial addr cfg with
      | Except.error e =>
        { out := Out.ret () (some e), st := { s with sshClient := false },
          tr := tr1 ++ [Ev.lookupEv host, Ev.dialEv addr] }
      | Except.ok _ =>
        let s1 := { s with sshClient := true }
        match env.newClient with
        | Except.ok _ =>
          { out := Out.ret () none, st := { s1 with sftpClient := true },
            tr := tr1 ++ [Ev.lookupEv host, Ev.dialEv addr, Ev.newClientEv] }
        | Except.error e =>
          let s2 := { s1 with sftpClient := false }
          match env.sshClose with
          | some e2 =>
            { out := Out.ret () (some e2), st := s2,
              tr := tr1 ++ [Ev.lookupEv host, Ev.dialEv addr, Ev.newClientEv,
                             Ev.closeSsh] }
          | none =>
            { out := Out.ret () (some e), st := s2,
              tr := tr1 ++ [Ev.lookupEv host, Ev.dialEv addr, Ev.newClientEv,
                             Ev.closeSsh] }

/-- `list`: runs `ls -al p` in a fresh SSH session.  On `NewSession` or
`Output` failure it calls `quit`; a failed `quit` is returned, but a
successful `quit` falls through (there is no `return` on that path), so
after a `NewSession` failure the nil session is used and the call panics,
while after an `Output` failure the function reaches its final `return`
and surfaces the output error. -/
def list (env : Env) (s : SecureFtp) (p : String) : Result String :=
  if s.sshClient then
    match env.newSession with
    | Except.error _ =>
      let q := quit env s
      match q.out with
      | Out.panicked m => { out := Out.panicked m, st := s, tr := q.tr }
      | Out.ret _ (some e2) => { out := Out.ret "" (some e2), st := s, tr := q.tr }
      | Out.ret _ none =>
        { out := Out.panicked nilDeref, st := s, tr := q.tr }
    | Except.ok _ =>
      let cmd := s!"ls -al {p}"
      match env.output cmd with
      | (bytes, some e) =>
        let q := quit env s
        match q.out with
        | Out.panicked m =>
          { out := Out.panicked m, st := s,
            tr := [Ev.newSessionEv, Ev.outputEv cmd] ++ q.tr ++ [Ev.closeSession] }
        | Out.ret _ (some e2) =>
          { out := Out.ret "" (some e2), st := s,
            tr := [Ev.newSessionEv, Ev.outputEv cmd] ++ q.tr ++ [Ev.closeSession] }
        | Out.ret _ none =>
          { out := Out.ret bytes (some e), st := s,
            tr := [Ev.newSessionEv, Ev.outputEv cmd] ++ q.tr ++ [Ev.closeSession] }
      | (bytes, none) =>
        { out := Out.ret bytes none, st := s,
          tr := [Ev.newSessionEv, Ev.outputEv cmd, Ev.closeSession] }
  else { out := Out.panicked nilDeref, st := s, tr := [] }

/-- The dynamic type of the `local interface\x7b\x7d` argument of
`download`/`upload`: a caller stream implementing only `io.WriteCloser`,
one implementing only `io.ReadCloser`, a `string` path, or any other
type. -/
inductive LocalArg where
  | wc
  | rc
  | str (p : String)
  | other
deriving Repr, DecidableEq

/-- What the local write side `w` of `download` is bound to: the caller's
stream, a freshly created file, or the nil `*os.File` left by a failed
`os.Create` (whose `Close`/`Write` return `ErrInvalid` without
panicking). -/
inductive LocalW where
  | caller
  | file
  | nilFile
deriving Repr, DecidableEq

/-- The event emitted by the deferred `w.Close()` of `download`. -/
def wCloseEv (w : LocalW) : Ev :=
  match w with
  | LocalW.caller => Ev.closeLocal
  | _ => Ev.closeLocalFile

/-- What the local read side `r` of `upload` is bound to. -/
inductive LocalR where
  | caller
  | file
  | nilFile
deriving Repr, DecidableEq

/-- The event emitted by the deferred `r.Close()` of `upload`. -/
def rCloseEv (r : LocalR) : Ev :=
  match r with
  | LocalR.caller => Ev.closeLocal
  | _ => Ev.closeLocalFile

/-- Lines 114–126 of `download`, entered once `w` is bound and
`defer w.Close()` is registered.  `sftpClient.Open` on a nil client
panics; an `Open` error with a successful `quit` falls through, so
`io.Copy` reads from the nil `*sftp.File` and panics; a `Copy` error
with a successful `quit` falls through to the final `return`, surfacing
the copy error.  Deferred closes run on every exit, panics included. -/
def downloadBody (env : Env) (s : SecureFtp) (remote : String) (w : LocalW)
    (tr0 : List Ev) : Result Nat :=
  if s.sftpClient then
    match env.openRemote remote with
    | Except.error _ =>
      let q := quit env s
      match q.out with
      | Out.panicked m =>
        { out := Out.panicked m, st := s,
          tr := tr0 ++ [Ev.openRemoteEv remote] ++ q.tr ++ [wCloseEv w] }
      | Out.ret _ (some e2) =>
        { out := Out.ret 0 (some e2), st := s,
          tr := tr0 ++ [Ev.openRemoteEv remote] ++ q.tr ++ [wCloseEv w] }
      | Out.ret _ none =>
        { out := Out.panicked nilDeref, st := s,
          tr := tr0 ++ [Ev.openRemoteEv remote] ++ q.tr ++ [wCloseEv w] }
    | Except.ok _ =>
      match env.copy with
      | (n, some e) =>
        let q := quit env s
        match q.out with
        | Out.panicked m =>
          { out := Out.panicked m, st := s,
            tr := tr0 ++ [Ev.openRemoteEv remote, Ev.copyEv] ++ q.tr ++
                   [Ev.closeRemote, wCloseEv w] }
        | Out.ret _ (some e2) =>
          { out := Out.ret 0 (some e2), st := s,
            tr := tr0 ++ [Ev.openRemoteEv remote, Ev.copyEv] ++ q.tr ++
                   [Ev.closeRemote, wCloseEv w] }
        | Out.ret _ none =>
          { out := Out.ret n (some e), st := s,
            tr := tr0 ++ [Ev.openRemoteEv remote, Ev.copyEv] ++ q.tr ++
                   [Ev.closeRemote, wCloseEv w] }
      | (n, none) =>
        { out := Out.ret n none, st := s,
          tr := tr0 ++ [Ev.openRemoteEv remote, Ev.copyEv, Ev.closeRemote,
                         wCloseEv w] }
  else { out := Out.panicked nilDeref, st := s, tr := tr0 ++ [wCloseEv w] }

/-- `download`: binds `w` from the `local` argument (unchecked assertion
to `string` when it is not an `io.WriteCloser` — any other type panics),
then runs the body.  An `os.Create` failure calls `quit` before the
`defer w.Close()` is registered; a successful `quit` there falls through
with `w` the nil `*os.File`. -/
def download (env : Env) (s : SecureFtp) (localArg : LocalArg) (remote : String) :
    Result Nat :=
  match localArg with
  | LocalArg.wc => downloadBody env s remote LocalW.caller []
  | LocalArg.str p =>
    match env.createLocal p with
    | Except.ok _ => downloadBody env s remote LocalW.file [Ev.createLocalEv p]
    | Except.error _ =>
      let q := quit env s
      match q.out with
      | Out.panicked m =>
        { out := Out.panicked m, st := s, tr := [Ev.createLocalEv p] ++ q.tr }
      | Out.ret _ (some e2) =>
        { out := Out.ret 0 (some e2), st := s,
          tr := [Ev.createLocalEv p] ++ q.tr }
      | Out.ret _ none =>
        downloadBody env s remote LocalW.nilFile ([Ev.createLocalEv p] ++ q.tr)
  | _ => { out := Out.panicked "interface conversion", st := s, tr := [] }

/-- Lines 139–153 of `upload`, entered once `r` is bound and
`defer r.Close()` is registered.  `wNil` is false on the normal path; it
is true on the fall-through after a `Create` failure whose `quit`
succeeded, where `w` is the nil `*sftp.File`: then writing to `w` during
`io.Copy` panics, and even if the copy returns (empty source, or the nil
`*os.File` source erroring first) the deferred `w.Close()` dereferences
nil, so every exit of that region panics. -/
def uploadCopy (env : Env) (s : SecureFtp) (r : LocalR) (wNil : Bool)
    (tr0 : List Ev) : Result Nat :=
  if wNil then
    match (match r with
           | LocalR.nilFile => Sum.inr ((0 : Nat), some "invalid argument")
           | _ => env.copyNil) with
    | Sum.inl _ =>
      { out := Out.panicked nilDeref, st := s,
        tr := tr0 ++ [Ev.copyEv, rCloseEv r] }
    | Sum.inr (_, none) =>
      { out := Out.panicked nilDeref, st := s,
        tr := tr0 ++ [Ev.copyEv, rCloseEv r] }
    | Sum.inr (_, some _) =>
      let q := quit env s
      match q.out with
      | Out.panicked m =>
        { out := Out.panicked m, st := s,
          tr := tr0 ++ [Ev.copyEv] ++ q.tr ++ [rCloseEv r] }
      | Out.ret _ _ =>
        { out := Out.panicked nilDeref, st := s,
          tr := tr0 ++ [Ev.copyEv] ++ q.tr ++ [rCloseEv r] }
  else
    match env.copy with
    | (n, some e) =>
      let q := quit env s
      match q.out with
      | Out.panicked m =>
        { out := Out.panicked m, st := s,
          tr := tr0 ++ [Ev.copyEv] ++ q.tr ++ [Ev.closeRemote, rCloseEv r] }
      | Out.ret _ (some e2) =>
        { out := Out.ret 0 (some e2), st := s,
          tr := tr0 ++ [Ev.copyEv] ++ q.tr ++ [Ev.closeRemote, rCloseEv r] }
      | Out.ret _ none =>
        { out := Out.ret n (some e), st := s,
          tr := tr0 ++ [Ev.copyEv] ++ q.tr ++ [Ev.closeRemote, rCloseEv r] }
    | (n, none) =>
      { out := Out.ret n none, st := s,
        tr := tr0 ++ [Ev.copyEv, Ev.closeRemote, rCloseEv r] }

/-- Lines 139–153 of `upload`: with `defer r.Close()` registered, create
the remote file (panicking on a nil client), handle a `Create` failure
via `quit` (falling through with a nil `w` when `quit` succeeds), then
copy. -/
def uploadBody (env : Env) (s : SecureFtp) (remote : String) (r : LocalR)
    (tr0 : List Ev) : Result Nat :=
  if s.sftpClient then
    match env.createRemote remote with
    | Except.ok _ =>
      uploadCopy env s r false (tr0 ++ [Ev.createRemoteEv remote])
    | Except.error _ =>
      let q := quit env s
      match q.out with
      | Out.panicked m =>
        { out := Out.panicked m, st := s,
          tr := tr0 ++ [Ev.createRemoteEv remote] ++ q.tr ++ [rCloseEv r] }
      | Out.ret _ (some e2) =>
        { out := Out.ret 0 (some e2), st := s,
          tr := tr0 ++ [Ev.createRemoteEv remote] ++ q.tr ++ [rCloseEv r] }
      | Out.ret _ none =>
        uploadCopy env s r true (tr0 ++ [Ev.createRemoteEv remote] ++ q.tr)
  else { out := Out.panicked nilDeref, st := s, tr := tr0 ++ [rCloseEv r] }

/-- `upload`: binds `r` from the `local` argument (unchecked assertion to
`string` when it is not an `io.ReadCloser` — any other type panics),
then runs the body.  An `os.Open` failure calls `quit` before the
`defer r.Close()` is registered; a successful `quit` there falls through
with `r` the nil `*os.File`. -/
def upload (env : Env) (s : SecureFtp) (localArg : LocalArg) (remote : String) :
    Result Nat :=
  match localArg with
  | LocalArg.rc => uploadBody env s remote LocalR.caller []
  | LocalArg.str p =>
    match env.openLocal p with
    | Except.ok _ => uploadBody env s remote LocalR.file [Ev.openLocalEv p]
    | Except.error _ =>
      let q := quit env s
      match q.out with
      | Out.panicked m =>
        { out := Out.panicked m, st := s, tr := [Ev.openLocalEv p] ++ q.tr }
      | Out.ret _ (some e2) =>
        { out := Out.ret 0 (some e2), st := s,
          tr := [Ev.openLocalEv p] ++ q.tr }
      | Out.ret _ none =>
        uploadBody env s remote LocalR.nilFile ([Ev.openLocalEv p] ++ q.tr)
  | _ => { out := Out.panicked "interface conversion", st := s, tr := [] }

/-- Shared shape of the four mutation operations: run the underlying
subprotocol call (panicking when the client pointer is nil); on failure
call `quit`, and `panic(e)` when `quit` itself fails; a successful
`quit` falls through to the final `return`, surfacing the original
error. -/
def mutate (env : Env) (s : SecureFtp) (callRes : Err) (callEv : Ev) :
    Result Unit :=
  if s.sftpClient then
    match callRes with
    | none => { out := Out.ret () none, st := s, tr := [callEv] }
    | some e =>
      let q := quit env s
      match q.out with
      | Out.panicked m => { out := Out.panicked m, st := s, tr := [callEv] ++ q.tr }
      | Out.ret _ (some e2) =>
        { out := Out.panicked e2, st := s, tr := [callEv] ++ q.tr }
      | Out.ret _ none =>
        { out := Out.ret () (some e), st := s, tr := [callEv] ++ q.tr }
  else { out := Out.panicked nilDeref, st := s, tr := [] }

/-- `mkdir`: `sftpClient.Mkdir(p)`, with panic-on-teardown-failure. -/
def mkdir (env : Env) (s : SecureFtp) (p : String) : Result Unit :=
  mutate env s (env.mkdirRes p) (Ev.mkdirEv p)

/-- `remove`: `sftpClient.Remove(p)`, with panic-on-teardown-failure. -/
def remove (env : Env) (s : SecureFtp) (p : String) : Result Unit :=
  mutate env s (env.removeRes p) (Ev.removeEv p)

/-- `rename`: `sftpClient.Rename(old, new)`, with
panic-on-teardown-failure. -/
def rename (env : Env) (s : SecureFtp) (old new : String) : Result Unit :=
  mutate env s (env.renameRes old new) (Ev.renameEv old new)

/-- `symlink(dest, src)`: delegates to `sftpClient.Symlink(src, dest)` —
the library's `oldname` is `src`, its `newname` is `dest`, so the link is
created at `dest` (the first facade argument) pointing at `src` (the
second). -/
def symlink (env : Env) (s : SecureFtp) (dest src : String) : Result Unit :=
  mutate env s (env.symlinkRes src dest) (Ev.symlinkEv src dest)

/-- Password-only connection parameters used in concrete runs. -/
def p0 : SftpParameters :=
  { host := "example.com", port := 22, user := "alice", pass := "pw",
    useKey := false, privateKey := "", usePassphrase := false,
    passphrase := "" }

/-- Key-based parameters whose private key is a `FILEPROTOCOL` file
reference. -/
def pFile : SftpParameters :=
  { host := "example.com", port := 22, user := "alice", pass := "",
    useKey := true, privateKey := "file:///tmp/k", usePassphrase := false,
    passphrase := "" }

/-- An established session: both client pointers non-nil. -/
def stEst : SecureFtp :=
  { sshClient := true, sftpClient := true, params := p0 }

/-- Environment in which every external call succeeds. -/
def envAllOk : Env :=
  { lookupIP := fun _ => Except.ok ["10.0.0.1"],
    readFile := fun _ => Except.ok "PEMDATA",
    parseKey := fun _ => Except.ok (),
    parseKeyWithPass := fun _ _ => Except.ok (),
    dial := fun _ _ => Except.ok (),
    newClient := Except.ok (),
    sftpClose := none,
    sshClose := none,
    newSession := Except.ok (),
    output := fun _ => ("total 0", none),
    createLocal := fun _ => Except.ok (),
    openLocal := fun _ => Except.ok (),
    openRemote := fun _ => Except.ok (),
    createRemote := fun _ => Except.ok (),
    copy := (42, none),
    copyNil := Sum.inl nilDeref,
    mkdirRes := fun _ => none,
    removeRes := fun _ => none,
    renameRes := fun _ _ => none,
    symlinkRes := fun _ _ => none }

/-- Environment in which DNS resolution fails. -/
def envDNS : Env :=
  { envAllOk with lookupIP := fun _ => Except.error "no such host" }

/-- Environment in which the remote `Open` fails but every close
succeeds. -/
def envC1 : Env :=
  { envAllOk with openRemote := fun _ => Except.error "no such file" }

/-- Environment in which `Mkdir` fails and closing the SFTP client also
fails. -/
def envC3 : Env :=
  { envAllOk with mkdirRes := fun _ => some "boom",
                  sftpClose := some "closefail" }

/-- Claim C1 (code bug): on an established session where
`sftpClient.Open` fails and the subsequent teardown succeeds, `download`
does attempt the teardown (both closes appear in the trace) but then
falls through past the teardown block — there is no `return` on that
path — and panics on a nil dereference inside `io.Copy` instead of
returning the original open error to the caller. -/
theorem c1_download_open_failure_panics :
    (download envC1 stEst LocalArg.wc "remote.txt").out =
      Out.panicked nilDeref ∧
    (download envC1 stEst LocalArg.wc "remote.txt").tr =
      [Ev.openRemoteEv "remote.txt", Ev.closeSftp, Ev.closeSsh,
       Ev.closeLocal] :=
  ⟨rfl, rfl⟩

/-- Claim C2: whenever `connect` returns the nil error, both the
transport handle and the subprotocol handle are set. -/
theorem c2_connect_success_sets_handles (env : Env) (s : SecureFtp)
    (h : (connect env s).out = Out.ret () none) :
    (connect env s).st.sshClient = true ∧
    (connect env s).st.sftpClient = true := by
  revert h
  unfold connect
  repeat' split
  all_goals intro h
  all_goals repeat' (first | simp_all | split)

/-- Witness for C2: a run in which every external call succeeds. -/
theorem c2_witness :
    (connect envAllOk (newSftp p0)).out = Out.ret () none ∧
    ((connect envAllOk (newSftp p0)).st.sshClient = true ∧
     (connect envAllOk (newSftp p0)).st.sftpClient = true) :=
  ⟨rfl, c2_connect_success_sets_handles envAllOk (newSftp p0) rfl⟩

/-- The failure policy shared by the four mutation operations: when the
underlying call fails and `quit` also fails, the process panics with the
teardown error; when `quit` succeeds, the original error is returned. -/
theorem mutate_failure_policy (env : Env) (s : SecureFtp) (res : Err)
    (ev : Ev) (e : GoErr) (h2 : s.sftpClient = true) (hres : res = some e) :
    (∀ e2, (quit env s).out = Out.ret () (some e2) →
       (mutate env s res ev).out = Out.panicked e2) ∧
    ((quit env s).out = Out.ret () none →
       (mutate env s res ev).out = Out.ret () (some e)) := by
  subst hres
  constructor
  · intro e2 hq
    simp [mutate, h2, hq]
  · intro hq
    simp [mutate, h2, hq]

/-- Claim C3: for each of `mkdir`, `remove`, `rename` and `symlink`, a
failing subprotocol call followed by a failing teardown aborts the
process with the teardown error, while a successful teardown lets the
original error be returned. -/
theorem c3_mutation_teardown_policy (env : Env) (s : SecureFtp)
    (p old new dest src : String) (h2 : s.sftpClient = true) :
    (∀ e, env.mkdirRes p = some e →
      (∀ e2, (quit env s).out = Out.ret () (some e2) →
         (mkdir env s p).out = Out.panicked e2) ∧
      ((quit env s).out = Out.ret () none →
         (mkdir env s p).out = Out.ret () (some e))) ∧
    (∀ e, env.removeRes p = some e →
      (∀ e2, (quit env s).out = Out.ret () (some e2) →
         (remove env s p).out = Out.panicked e2) ∧
      ((quit env s).out = Out.ret () none →
         (remove env s p).out = Out.ret () (some e))) ∧
    (∀ e, env.renameRes old new = some e →
      (∀ e2, (quit env s).out = Out.ret () (some e2) →
         (rename env s old new).out = Out.panicked e2) ∧
      ((quit env s).out = Out.ret () none →
         (rename env s old new).out = Out.ret () (some e))) ∧
    (∀ e, env.symlinkRes src dest = some e →
      (∀ e2, (quit env s).out = Out.ret () (some e2) →
         (symlink env s dest src).out = Out.panicked e2) ∧
      ((quit env s).out = Out.ret () none →
         (symlink env s dest src).out = Out.ret () (some e))) :=
  ⟨fun e he => mutate_failure_policy env s _ _ e h2 he,
   fun e he => mutate_failure_policy env s _ _ e h2 he,
   fun e he => mutate_failure_policy env s _ _ e h2 he,
   fun e he => mutate_failure_policy env s _ _ e h2 he⟩

/-- Witness for C3: `Mkdir` fails with "boom", the teardown fails with
"closefail", and the process panics with the teardown error. -/
theorem c3_witness :
    (mkdir envC3 stEst "d").out = Out.panicked "closefail" :=
  ((c3_mutation_teardown_policy envC3 stEst "d" "o" "n" "l" "t" rfl).1
    "boom" rfl).1 "closefail" rfl

/-- Claim C4: `quit` closes the subprotocol channel first and the
transport second, returns the first error encountered, and when closing
the subprotocol channel fails it never attempts to close the
transport. -/
theorem c4_quit_order_and_first_error (env : Env) (s : SecureFtp)
    (h1 : s.sftpClient = true) (h2 : s.sshClient = true) :
    (env.sftpClose = none → env.sshClose = none →
       (quit env s).out = Out.ret () none ∧
       (quit env s).tr = [Ev.closeSftp, Ev.closeSsh]) ∧
    (∀ e, env.sftpClose = some e →
       (quit env s).out = Out.ret () (some e) ∧
       (quit env s).tr = [Ev.closeSftp] ∧
       Ev.closeSsh ∉ (quit env s).tr) ∧
    (∀ e, env.sftpClose = none → env.sshClose = some e →
       (quit env s).out = Out.ret () (some e) ∧
       (quit env s).tr = [Ev.closeSftp, Ev.closeSsh]) := by
  refine ⟨fun ha hb => ?_, fun e ha => ?_, fun e ha hb => ?_⟩ <;>
    simp [quit, h1, h2, ha, *]

/-- Witness for C4: closing the subprotocol channel fails, the error is
returned and the transport close is never attempted. -/
theorem c4_witness :
    (quit envC3 stEst).out = Out.ret () (some "closefail") ∧
    (quit envC3 stEst).tr = [Ev.closeSftp] ∧
    Ev.closeSsh ∉ (quit envC3 stEst).tr :=
  (c4_quit_order_and_first_error envC3 stEst rfl rfl).2.1 "closefail" rfl

/-- Counterexample to claim C5: a failed `connect` (here a DNS failure
on a fresh facade) leaves the subprotocol pointer nil, and a subsequent
`quit` dereferences it and panics — contrary to the claim that no
failed `connect` leaves the handles in a state on which `quit`
panics. -/
theorem c5_counterexample :
    (connect envDNS (newSftp p0)).out = Out.ret () (some "no such host") ∧
    (quit envDNS (connect envDNS (newSftp p0)).st).out =
      Out.panicked nilDeref :=
  ⟨rfl, rfl⟩

/-- Claim C5 as amended: every failed `connect` on a fresh facade leaves
the subprotocol handle nil, so a subsequent `quit` on that facade panics
on a nil dereference. -/
theorem c5_amended_failed_connect_quit_panics (env : Env)
    (p : SftpParameters) (e : GoErr)
    (h : (connect env (newSftp p)).out = Out.ret () (some e)) :
    (connect env (newSftp p)).st.sftpClient = false ∧
    (quit env (connect env (newSftp p)).st).out = Out.panicked nilDeref := by
  have h2 : (connect env (newSftp p)).st.sftpClient = false := by
    revert h
    unfold connect newSftp
    repeat' split
    all_goals intro h
    all_goals repeat' (first | simp_all | split)
  exact ⟨h2, by simp [quit, h2]⟩

/-- Witness for the amended C5: the DNS-failure run. -/
theorem c5_witness :
    (connect envDNS (newSftp p0)).st.sftpClient = false ∧
    (quit envDNS (connect envDNS (newSftp p0)).st).out =
      Out.panicked nilDeref :=
  c5_amended_failed_connect_quit_panics envDNS p0 "no such host" rfl

/-- Counterexample to claim C6: calling the facade's
`symlink("linkpath", "target")` issues the library call
`Symlink("target", "linkpath")`, i.e. the link is created at the FIRST
facade argument pointing at the second; the delegated call the claim
predicts — one creating the link at the second argument pointing at the
first, `symlinkEv "linkpath" "target"` — never occurs in the trace. -/
theorem c6_counterexample :
    (symlink envAllOk stEst "linkpath" "target").tr =
      [Ev.symlinkEv "target" "linkpath"] ∧
    Ev.symlinkEv "linkpath" "target" ∉
      (symlink envAllOk stEst "linkpath" "target").tr := by
  exact ⟨rfl, by decide⟩

/-- Claim C6 as amended: `symlink(dest, src)` performs a single
delegated subprotocol symlink call that creates a link at `dest` (the
FIRST argument) pointing at `src` (the second argument). -/
theorem c6_amended_symlink_delegation (env : Env) (s : SecureFtp)
    (dest src : String) (h2 : s.sftpClient = true)
    (hok : env.symlinkRes src dest = none) :
    (symlink env s dest src).tr = [Ev.symlinkEv src dest] ∧
    (symlink env s dest src).out = Out.ret () none := by
  constructor <;> simp [symlink, mutate, h2, hok]

/-- Witness for the amended C6. -/
theorem c6_witness :
    (symlink envAllOk stEst "lk" "tg").tr = [Ev.symlinkEv "tg" "lk"] ∧
    (symlink envAllOk stEst "lk" "tg").out = Out.ret () none :=
  c6_amended_symlink_delegation envAllOk stEst "lk" "tg" rfl rfl

/-- Claim C7: the host-key verification callback installed in the
transport configuration built by `connect` reports success for every
hostname, remote address and presented public key. -/
theorem c7_hostkey_accepts_all (p : SftpParameters) (h r k : String) :
    (baseConfig p).hostKeyCheck h r k = none :=
  rfl

/-- Claim C8: with key authentication enabled, the private key material
is read from the local file named by stripping the `FILEPROTOCOL` scheme
when the configured string carries it (a read failure surfacing, through
`connect`, as an error naming that file), and is the configured string
itself otherwise; in both cases the key is parsed with the passphrase
exactly when `usePassphrase` is set (the `withPass` field of the
`parseEv` event). -/
theorem c8_key_resolution (env : Env) (p : SftpParameters)
    (hk : p.useKey = true) :
    (hasScheme p.privateKey = true →
      (∀ e, env.readFile (keyPath p) = Except.error e →
        (resolveKey env p).1 = Except.error (keyFileError (keyPath p) e) ∧
        (connect env (newSftp p)).out =
          Out.ret () (some (keyFileError (keyPath p) e))) ∧
      (∀ b, env.readFile (keyPath p) = Except.ok b →
        (resolveKey env p).2 =
          [Ev.readFileEv (keyPath p),
           Ev.parseEv b p.usePassphrase
             (if p.usePassphrase then p.passphrase else "")])) ∧
    (hasScheme p.privateKey = false →
      (resolveKey env p).2 =
        [Ev.parseEv p.privateKey p.usePassphrase
           (if p.usePassphrase then p.passphrase else "")]) := by
  constructor
  · intro hpre
    constructor
    · intro e he
      constructor
      · simp [resolveKey, hpre, he]
      · simp [connect, newSftp, resolveKey, hk, hpre, he]
    · intro b hb
      rcases hp : p.usePassphrase with _ | _
      · rcases hpk : env.parseKey b with e2 | u <;>
          simp [resolveKey, parseStep, hpre, hb, hp, hpk]
      · rcases hpk : env.parseKeyWithPass b p.passphrase with e2 | u <;>
          simp [resolveKey, parseStep, hpre, hb, hp, hpk]
  · intro hpre
    rcases hp : p.usePassphrase with _ | _
    · rcases hpk : env.parseKey p.privateKey with e2 | u <;>
        simp [resolveKey, parseStep, hpre, hp, hpk]
    · rcases hpk : env.parseKeyWithPass p.privateKey p.passphrase with e2 | u <;>
        simp [resolveKey, parseStep, hpre, hp, hpk]

/-- Witness for C8: a `FILEPROTOCOL`-referenced key read successfully
from `/tmp/k` and parsed without a passphrase. -/
theorem c8_witness :
    (resolveKey envAllOk pFile).2 =
      [Ev.readFileEv (keyPath pFile),
       Ev.parseEv "PEMDATA" pFile.usePassphrase
         (if pFile.usePassphrase then pFile.passphrase else "")] :=
  ((c8_key_resolution envAllOk pFile rfl).1 (by decide)).2 "PEMDATA" rfl

/-- Claim C9: when the `local` argument of `download`/`upload` is an
already-open caller-owned stream, the facade closes that stream on every
termination of the call — the `defer` registered right after the
interface assertion runs on normal returns and during panic
unwinding alike, in every environment and facade state. -/
theorem c9_caller_stream_closed (env : Env) (s : SecureFtp)
    (remote : String) :
    Ev.closeLocal ∈ (download env s LocalArg.wc remote).tr ∧
    Ev.closeLocal ∈ (upload env s LocalArg.rc remote).tr := by
  constructor
  · have hd : download env s LocalArg.wc remote =
        downloadBody env s remote LocalW.caller [] := rfl
    rw [hd]
    unfold downloadBody
    repeat' (first | simp_all [wCloseEv] | split)
  · have hu : upload env s LocalArg.rc remote =
        uploadBody env s remote LocalR.caller [] := rfl
    rw [hu]
    unfold uploadBody uploadCopy
    repeat' (first | simp_all [rCloseEv] | split)

/-- Claim C10: a `local` argument that implements neither the expected
stream interface nor `string` — e.g. an `io.ReadCloser` passed to
`download`, an `io.WriteCloser` passed to `upload`, or any other type —
makes the unchecked `local.(string)` type assertion panic instead of
returning an error. -/
theorem c10_bad_local_type_panics (env : Env) (s : SecureFtp)
    (remote : String) :
    (download env s LocalArg.rc remote).out =
      Out.panicked "interface conversion" ∧
    (download env s LocalArg.other remote).out =
      Out.panicked "interface conversion" ∧
    (upload env s LocalArg.wc remote).out =
      Out.panicked "interface conversion" ∧
    (upload env s LocalArg.other remote).out =
      Out.panicked "interface conversion" :=
  ⟨rfl, rfl, rfl, rfl⟩
